import Mathlib

/-!
Shallow embedding of the orchestration core of the content-creation
automation server: the workflow orchestrator (`executeCompleteWorkflow`,
`handleEmailApprovalWithInstagram` from `workflow.service.ts`), the
Instagram publish register (`createInstagramContainer`,
`publishContainer`, `getContainerStatus`, `getAllContainers` from
`instagram-upload.service.ts`), the status controller
(`InstagramUploadController.getContainerStatus`), and the email retry
loops (`sendApprovalEmail`, `sendContentDeliveryEmail` from
`email.service.ts`).  External collaborators (image service, video
service, SMTP transport, the Facebook Graph API) are modelled as oracles
supplied per run; JavaScript string/option truthiness (`||`, `!x`) is
modelled explicitly.
-/

namespace ContentServer

/-- JavaScript truthiness of a possibly-undefined string: `undefined` and
`""` are falsy. -/
def jsTruthy : Option String → Bool
  | none => false
  | some s => !(s == "")

/-- JavaScript `a || b` where both sides are possibly-undefined strings
(`config.recipientEmail || this.configService.get of `MAIL_USER``). -/
def jsOrOpt (a b : Option String) : Option String :=
  match a with
  | some s => if s == "" then b else some s
  | none => b

/-- JavaScript `a || d` with a definite default string
(`config.videoDuration || "5"`, `...?.type || Unknown-default`). -/
def jsOrD (a : Option String) (d : String) : String :=
  match a with
  | some s => if s == "" then d else s
  | none => d

/-- The constant `HARDCODED_VIDEO_PROMPT` from `workflow.service.ts`. -/
def HARDCODED_VIDEO_PROMPT : String :=
  "Create a dynamic video from this image. Add natural movement and life to the scene: gentle camera motion, moving elements like leaves, water, clouds, or people if present. Keep it smooth and realistic. Focus on bringing the static image to life with subtle animations and flowing movements. Dont add anything not present in the image. The main aim of the video is to make the image dynamic by motion."

/-- Type `WorkflowConfig` from `workflow.service.ts` (optional fields are
`Option`s; `videoDuration` is kept as a string as in the source union
type `"5" | "10"`). -/
structure WorkflowConfig where
  imageUrl : String
  recipientEmail : Option String
  videoDuration : Option String
  autoPublishToInstagram : Option Bool
deriving Repr, DecidableEq

/-- One per-step record `{ success: boolean; data?: α; error?: string }`. -/
structure StepRec (α : Type) where
  success : Bool
  data : Option α
  error : Option String
deriving Repr, DecidableEq

/-- The initial placeholder value every step slot receives at the top of
`executeCompleteWorkflow` (`{ success: false }`). -/
def initStep {α : Type} : StepRec α := ⟨false, none, none⟩

/-- Data stored by step 1: `{ convertedImage: string }`. -/
structure ImageData where
  convertedImage : String
deriving Repr, DecidableEq

/-- Data stored by step 2: `{ prompt: string }`. -/
structure PromptData where
  prompt : String
deriving Repr, DecidableEq

/-- Data stored by step 3 (`captionResult` from
`generateCaptionFromImageUrl`). -/
structure CaptionData where
  caption : String
  hashtags : List String
deriving Repr, DecidableEq

/-- Data stored by step 4 (`GenerateVideoResponse`, the fields the
orchestrator reads). -/
structure VideoData where
  videoUrl : String
  taskId : String
deriving Repr, DecidableEq

/-- Data stored by step 5: `{ emailSent: true, recipientEmail }`. -/
structure EmailData where
  emailSent : Bool
  recipientEmail : String
deriving Repr, DecidableEq

/-- Data stored by step 6: either the `{ containerId, message, scheduled,
publishIn }` record of the auto-publish branch or the `{ skipped: true,
reason }` record of the skip branch. -/
inductive InstaStepData where
  | created (containerId : Option String) (message : String)
      (scheduled : Bool) (publishIn : String)
  | skipped (reason : String)
deriving Repr, DecidableEq

/-- JavaScript read `data?.skipped` as a boolean: only the skip-branch
record carries a (literally `true`) `skipped` field. -/
def dataSkipped : Option InstaStepData → Bool
  | some (.skipped _) => true
  | _ => false

/-- JavaScript read `data?.containerId`. -/
def dataContainerId : Option InstaStepData → Option String
  | some (.created cid _ _ _) => cid
  | _ => none

/-- The `steps` record of `WorkflowResult`. -/
structure StepsRec where
  imageConversion : StepRec ImageData
  promptGeneration : StepRec PromptData
  captionGeneration : StepRec CaptionData
  videoGeneration : StepRec VideoData
  emailSending : StepRec EmailData
  instagramUpload : StepRec InstaStepData
deriving Repr, DecidableEq

/-- The fully-initialised `steps` value built at the top of
`executeCompleteWorkflow` (all six slots `{ success: false }`). -/
def initSteps : StepsRec :=
  ⟨initStep, initStep, initStep, initStep, initStep, initStep⟩

/-- Field `finalOutput` of `WorkflowResult`. -/
structure FinalOutput where
  convertedImage : String
  prompt : String
  caption : String
  hashtags : List String
  videoUrl : String
  emailSent : Bool
  instagramContainerId : Option String
  instagramPublished : Bool
deriving Repr, DecidableEq

/-- Type `WorkflowResult` from `workflow.service.ts`. -/
structure WorkflowResult where
  success : Bool
  steps : StepsRec
  finalOutput : Option FinalOutput
  executionTime : Nat
deriving Repr, DecidableEq

/-- Caption options passed verbatim by step 3 of the orchestrator. -/
structure CaptionOptions where
  tone : String
  maxHashtags : Nat
  maxCaptionLength : Nat
  includeCallToAction : Bool
  targetAudience : String
deriving Repr, DecidableEq

/-- The literal options object of step 3. -/
def workflowCaptionOptions : CaptionOptions :=
  ⟨"casual", 15, 300, true, "social media users"⟩

/-- Request object passed to `videoService.generateVideo` in step 4. -/
structure VideoRequest where
  imageBase64 : String
  prompt : String
  duration : String
deriving Repr, DecidableEq

/-- Result shape of `InstagramUploadService.createInstagramContainer`:
`{ success: boolean; containerId?: string; message: string }`. -/
structure InstaResult where
  success : Bool
  containerId : Option String
  message : String
deriving Repr, DecidableEq

/-- The external collaborators of one orchestrator run, as oracles: each
field gives the outcome of the corresponding awaited call (`.error e`
models a thrown exception with message `e`).  `mailUser` is the
`MAIL_USER` environment value, `elapsedMs` the measured wall-clock
duration `Date.now() - startTime`. -/
structure Collaborators where
  convertImage : String → Except String String
  generateCaption : String → CaptionOptions → Except String CaptionData
  generateVideo : VideoRequest → Except String VideoData
  sendEmail : String → String → String → List String → Except String Unit
  createContainer : String → String → Except String InstaResult
  mailUser : Option String
  elapsedMs : Nat

/-- Step 6 caption concatenation (line 174 of `workflow.service.ts`):
`` `${caption}\n\n${hashtags.join(' ')}` `` — unconditional, even for an
empty hashtag list. -/
def pipelineFullCaption (caption : String) (hashtags : List String) : String :=
  caption ++ "\n\n" ++ String.intercalate " " hashtags

/-- Approval-callback caption concatenation (lines 252–254 of
`workflow.service.ts`): the blank line and hashtags are appended only
when the hashtag list is non-empty. -/
def approvalFullCaption (caption : String) (hashtags : List String) : String :=
  if hashtags.length > 0 then caption ++ "\n\n" ++ String.intercalate " " hashtags
  else caption

/-- Helper assembling a failed `WorkflowResult` on the abort path: the
outer `catch` sets `success = false`, `finalOutput` stays unset, and the
`finally` block records the execution time. -/
def abortResult (env : Collaborators) (steps : StepsRec) : WorkflowResult :=
  { success := false, steps := steps, finalOutput := none,
    executionTime := env.elapsedMs }

/-- Function `WorkflowService.executeCompleteWorkflow`, translated step by step.
Required steps 1–4 rethrow their error to the outer catch after recording
their `StepOutcome`; step 2 only stores the hardcoded prompt and cannot
throw; steps 5 and 6 record their outcome without rethrowing; the final
output and `success = true` are set only after step 6. -/
def executeCompleteWorkflow (env : Collaborators) (config : WorkflowConfig) :
    WorkflowResult :=
  match env.convertImage config.imageUrl with
  | .error e =>
      abortResult env { initSteps with imageConversion := ⟨false, none, some e⟩ }
  | .ok img =>
    let s1 : StepsRec :=
      { initSteps with imageConversion := ⟨true, some ⟨img⟩, none⟩ }
    let s2 : StepsRec :=
      { s1 with promptGeneration := ⟨true, some ⟨HARDCODED_VIDEO_PROMPT⟩, none⟩ }
    match env.generateCaption config.imageUrl workflowCaptionOptions with
    | .error e =>
        abortResult env { s2 with captionGeneration := ⟨false, none, some e⟩ }
    | .ok cap =>
      let s3 : StepsRec := { s2 with captionGeneration := ⟨true, some cap, none⟩ }
      match env.generateVideo
          ⟨img, HARDCODED_VIDEO_PROMPT, jsOrD config.videoDuration "5"⟩ with
      | .error e =>
          abortResult env { s3 with videoGeneration := ⟨false, none, some e⟩ }
      | .ok vid =>
        let s4 : StepsRec := { s3 with videoGeneration := ⟨true, some vid, none⟩ }
        let s5 : StepsRec :=
          match jsOrOpt config.recipientEmail env.mailUser with
          | none =>
              { s4 with emailSending :=
                  ⟨false, none,
                    some "No recipient email provided and MAIL_USER not configured"⟩ }
          | some r =>
            if r == "" then
              { s4 with emailSending :=
                  ⟨false, none,
                    some "No recipient email provided and MAIL_USER not configured"⟩ }
            else
              match env.sendEmail r vid.videoUrl cap.caption cap.hashtags with
              | .ok _ =>
                  { s4 with emailSending := ⟨true, some ⟨true, r⟩, none⟩ }
              | .error e =>
                  { s4 with emailSending := ⟨false, none, some e⟩ }
        let s6 : StepsRec :=
          if config.autoPublishToInstagram = some true then
            match env.createContainer vid.videoUrl
                (pipelineFullCaption cap.caption cap.hashtags) with
            | .ok r =>
                { s5 with instagramUpload :=
                    ⟨r.success, some (.created r.containerId r.message true "1 minute"),
                      none⟩ }
            | .error e =>
                { s5 with instagramUpload := ⟨false, none, some e⟩ }
          else
            { s5 with instagramUpload :=
                ⟨true, some (.skipped "autoPublishToInstagram disabled"), none⟩ }
        { success := true,
          steps := s6,
          finalOutput := some
            { convertedImage := img,
              prompt := HARDCODED_VIDEO_PROMPT,
              caption := cap.caption,
              hashtags := cap.hashtags,
              videoUrl := vid.videoUrl,
              emailSent := s6.emailSending.success,
              instagramContainerId := dataContainerId s6.instagramUpload.data,
              instagramPublished :=
                s6.instagramUpload.success && !(dataSkipped s6.instagramUpload.data) },
          executionTime := env.elapsedMs }

/-- Function `WorkflowService.handleEmailApprovalWithInstagram`: combines caption
and hashtags (conditionally), forwards to the register's create-container
operation, surfaces its result unchanged, and converts a thrown exception
into a `{ success: false, message }` value. -/
def handleEmailApprovalWithInstagram
    (createC : String → String → Except String InstaResult)
    (videoUrl caption : String) (hashtags : List String) : InstaResult :=
  match createC videoUrl (approvalFullCaption caption hashtags) with
  | .ok r => r
  | .error e => ⟨false, none, "Failed to upload to Instagram: " ++ e⟩

/-! ## Instagram publish register (`instagram-upload.service.ts`) -/

/-- The status union of `ContainerInfo`:
`pending | processing | ready | published | failed`. -/
inductive ContainerStatus where
  | pending
  | processing
  | ready
  | published
  | failed
deriving Repr, DecidableEq

/-- Type `ContainerInfo` stored in the service's `containers` map (`createdAt`
as milliseconds since epoch). -/
structure ContainerInfo where
  containerId : String
  videoUrl : String
  caption : String
  createdAt : Nat
  status : ContainerStatus
deriving Repr, DecidableEq

/-- The Graph-API `error` object read out of an axios error response
(`error.response?.data?.error?.{message,type,code}`). -/
structure GraphApiError where
  errMessage : Option String
  errType : Option String
  errCode : Option String
deriving Repr, DecidableEq

/-- Outcome of one `axios.post` call to the Graph API: a 2xx response
whose body may or may not carry an `id`, an axios error (HTTP error or
transport failure, possibly with a platform `error` object in the
response body) carrying the `error.message` string, or a non-axios
exception. -/
inductive ApiOutcome where
  | ok (id : Option String)
  | axiosErr (message : String) (graphError : Option GraphApiError)
  | otherErr (message : String)
deriving Repr, DecidableEq

/-- Environment seen by one `createInstagramContainer` call: the two
credential environment variables and the outcome the network would
produce if the create call is issued. -/
structure CreateEnv where
  accessToken : Option String
  instagramId : Option String
  postMedia : ApiOutcome
deriving Repr, DecidableEq

/-- What one `createInstagramContainer` call produces: the value returned
to the caller, how many external network calls were issued (0 or 1), and
the `ContainerInfo` inserted into the register (also arming the one-shot
publish timer) when the call succeeded. -/
structure CreateOutput where
  result : InstaResult
  networkCalls : Nat
  stored : Option ContainerInfo
deriving Repr, DecidableEq

/-- The failure message built in the axios-error branch of
`createInstagramContainer`'s catch:
`Instagram API error: <message> (Type: <type>, Code: <code>)` with the
source's `||` fallbacks. -/
def axiosErrorMessage (message : String) (graphError : Option GraphApiError) :
    String :=
  "Instagram API error: " ++ jsOrD (graphError.bind (·.errMessage)) message
    ++ " (Type: " ++ jsOrD (graphError.bind (·.errType)) "Unknown"
    ++ ", Code: " ++ jsOrD (graphError.bind (·.errCode)) "N/A" ++ ")"

/-- Function `InstagramUploadService.createInstagramContainer`: checks the two
credentials before any network call (a missing one throws inside the try
and is converted by the generic catch branch), then issues one create
call; a response without an `id` throws likewise; on success the
container is stored with status `processing` and the 1-minute publish
timer is armed.  All throw sites are caught, so the function always
returns a plain `InstaResult`. -/
def createInstagramContainer (env : CreateEnv) (videoUrl caption : String)
    (now : Nat) : CreateOutput :=
  if !(jsTruthy env.accessToken) then
    ⟨⟨false, none,
        "Failed to create Instagram container: INSTAGRAM_ACCESS_TOKEN environment variable is not set"⟩,
      0, none⟩
  else if !(jsTruthy env.instagramId) then
    ⟨⟨false, none,
        "Failed to create Instagram container: INSTAGRAM_ACCOUNT_ID environment variable is not set"⟩,
      0, none⟩
  else
    match env.postMedia with
    | .ok id =>
      if jsTruthy id then
        let cid := id.getD ""
        ⟨⟨true, some cid,
            "Instagram container created successfully. Will be published in 1 minute."⟩,
          1, some ⟨cid, videoUrl, caption, now, .processing⟩⟩
      else
        ⟨⟨false, none,
            "Failed to create Instagram container: No container ID returned from Facebook API"⟩,
          1, none⟩
    | .axiosErr message graphError =>
        ⟨⟨false, none, axiosErrorMessage message graphError⟩, 1, none⟩
    | .otherErr message =>
        ⟨⟨false, none, "Failed to create Instagram container: " ++ message⟩,
          1, none⟩

/-- Environment seen by one deferred `publishContainer` run: credentials
at fire time and the outcome of the `media_publish` call. -/
structure PublishEnv where
  accessToken : Option String
  instagramId : Option String
  postPublish : ApiOutcome
deriving Repr, DecidableEq

/-- The terminal status `publishContainer` assigns to a present
container: `published` only when credentials are present, the publish
call returns, and a `mediaId` comes back; every caught exception path
sets `failed`. -/
def publishOutcome (env : PublishEnv) : ContainerStatus :=
  if !(jsTruthy env.accessToken) || !(jsTruthy env.instagramId) then .failed
  else
    match env.postPublish with
    | .ok mediaId => if jsTruthy mediaId then .published else .failed
    | .axiosErr _ _ => .failed
    | .otherErr _ => .failed

/-- The register's in-memory state: the `containers` map (as an
association list keyed by container id) and the set of armed one-shot
publish timers. -/
structure RegState where
  containers : List (String × ContainerInfo)
  pendingTimers : List String
deriving Repr, DecidableEq

/-- The empty register a fresh service instance starts with. -/
def initRegState : RegState := ⟨[], []⟩

/-- Operation `Map.set` on the association list (replace in place, else append). -/
def setEntry (m : List (String × ContainerInfo)) (k : String)
    (v : ContainerInfo) : List (String × ContainerInfo) :=
  bif m.any (fun p => p.1 == k) then
    m.map (fun p => bif p.1 == k then (k, v) else p)
  else m ++ [(k, v)]

/-- The two events that touch the register: a `createInstagramContainer`
call, and an armed publish timer firing (`setTimeout` → `publishContainer`). -/
inductive RegEvent where
  | create (env : CreateEnv) (videoUrl caption : String) (now : Nat)
  | timerFires (id : String) (env : PublishEnv)
deriving Repr, DecidableEq

/-- One register transition.  A successful create inserts the
`processing` container and arms its timer; a firing timer is consumed,
and `publishContainer` either aborts (container missing from storage) or
sets the terminal status computed by `publishOutcome`. -/
def stepReg (st : RegState) (e : RegEvent) : RegState :=
  match e with
  | .create env videoUrl caption now =>
    match (createInstagramContainer env videoUrl caption now).stored with
    | some ci =>
        ⟨setEntry st.containers ci.containerId ci,
          ci.containerId :: st.pendingTimers⟩
    | none => st
  | .timerFires id env =>
    match st.containers.lookup id with
    | none => ⟨st.containers, st.pendingTimers.erase id⟩
    | some ci =>
        ⟨setEntry st.containers id { ci with status := publishOutcome env },
          st.pendingTimers.erase id⟩

/-- Run a sequence of register events from a state. -/
def runReg (st : RegState) : List RegEvent → RegState
  | [] => st
  | e :: es => runReg (stepReg st e) es

/-- Event admissibility: a timer can only fire if it is armed (each
`setTimeout` callback runs once, for an id whose create succeeded), and
the platform issues fresh container ids (a Graph-API create call never
returns the id of an existing container). -/
def okEvent (st : RegState) : RegEvent → Bool
  | .create env videoUrl caption now =>
    match (createInstagramContainer env videoUrl caption now).stored with
    | some ci => !(st.containers.any (fun p => p.1 == ci.containerId))
    | none => true
  | .timerFires id _ => st.pendingTimers.contains id

/-- A trace is well-formed from a state when every event is admissible in
the state it fires in. -/
def wfTrace (st : RegState) : List RegEvent → Bool
  | [] => true
  | e :: es => okEvent st e && wfTrace (stepReg st e) es

/-- Function `InstagramUploadService.getContainerStatus`: a pure map lookup,
value `null` (here `none`) when the id is unknown. -/
def getContainerStatus (st : RegState) (containerId : String) :
    Option ContainerInfo :=
  st.containers.lookup containerId

/-- Function `InstagramUploadService.getAllContainers`: the stored containers. -/
def getAllContainers (st : RegState) : List ContainerInfo :=
  st.containers.map (·.2)

/-- Response shape of the controller route
`GET /instagram/container-status`. -/
inductive StatusResponse where
  | missingId (error : String) (message : String)
  | notFound (containerId : String) (message : String)
  | found (containerId : String) (info : ContainerInfo) (timeElapsed : Nat)
deriving Repr, DecidableEq

/-- Function `InstagramUploadController.getContainerStatus`: validates the query
parameter, performs the pure lookup, and on a hit derives
`timeElapsed = Date.now() - status.createdAt.getTime()`. -/
def getContainerStatusRoute (st : RegState) (now : Nat)
    (containerId : Option String) : StatusResponse :=
  if !(jsTruthy containerId) then
    .missingId "Container ID is required"
      "Please provide containerId query parameter"
  else
    let cid := containerId.getD ""
    match getContainerStatus st cid with
    | none => .notFound cid "Container not found"
    | some info => .found cid info (now - info.createdAt)

/-! ## Email retry loops (`email.service.ts`) -/

/-- The retry loop shared by `sendApprovalEmail` and
`sendContentDeliveryEmail`: `for (attempt = 1; attempt <= maxRetries;
attempt++)` around one `sendMail` call, waiting `attempt * 2000` ms after
a failed attempt only when `attempt < maxRetries` (i.e. when further
attempts remain).  `outcome n` is the result of the n-th send attempt
(`none` = delivered, `some e` = threw with message `e`); `remaining`
counts the attempts still allowed after the current one, so the loop
starts at `retryGo outcome 1 (maxRetries - 1)`.  Returns the waits
performed, in order, and `none` on delivery or `some lastError` when
every attempt failed. -/
def retryGo (outcome : Nat → Option String) :
    (attempt remaining : Nat) → List Nat × Option String
  | attempt, remaining =>
    match outcome attempt with
    | none => ([], none)
    | some e =>
      match remaining with
      | 0 => ([], some e)
      | r + 1 =>
        let rest := retryGo outcome (attempt + 1) r
        (attempt * 2000 :: rest.1, rest.2)

/-- Function `EmailApprovalService.sendContentDeliveryEmail` (`maxRetries = 3`):
returns the waits performed and either normal return or the thrown
final error. -/
def sendContentDeliveryEmail (outcome : Nat → Option String) :
    List Nat × Except String Unit :=
  let r := retryGo outcome 1 2
  (r.1,
    match r.2 with
    | none => .ok ()
    | some e => .error ("Email delivery failed after 3 attempts: " ++ e))

/-- Function `EmailApprovalService.sendApprovalEmail` (`maxRetries = 3`): same
loop, different final message. -/
def sendApprovalEmail (outcome : Nat → Option String) :
    List Nat × Except String Unit :=
  let r := retryGo outcome 1 2
  (r.1,
    match r.2 with
    | none => .ok ()
    | some e => .error ("Approval email delivery failed after 3 attempts: " ++ e))

/-! ## Concrete fixtures used by witnesses -/

/-- Stub collaborators where every external call succeeds (the leaf stubs
of the spec's concrete scenarios). -/
def stubEnv : Collaborators where
  convertImage := fun _ => .ok "IMG64"
  generateCaption := fun _ _ => .ok ⟨"Hello", ["#a", "#b"]⟩
  generateVideo := fun _ => .ok ⟨"https://v/1.mp4", "T1"⟩
  sendEmail := fun _ _ _ _ => .ok ()
  createContainer := fun _ _ =>
    .ok ⟨true, some "C1",
      "Instagram container created successfully. Will be published in 1 minute."⟩
  mailUser := some "a@b.com"
  elapsedMs := 0

/-- Stub collaborators where only video generation throws. -/
def stubEnvVideoFail : Collaborators :=
  { stubEnv with generateVideo := fun _ => .error "boom" }

/-- The spec's concrete config with auto-publish disabled. -/
def cfgNoAuto : WorkflowConfig :=
  ⟨"https://x/img.jpg", some "a@b.com", some "5", some false⟩

/-! ## Claims about the workflow orchestrator -/

/-- C1: if steps 1–4 (image conversion, prompt, caption, video) all
succeed, `executeCompleteWorkflow` returns `success = true` regardless of
the email and Instagram outcomes (which are universally quantified in
`env`), and across all runs `finalOutput` is present exactly when
`success` is true. -/
theorem workflow_c1 :
    (∀ (env : Collaborators) (config : WorkflowConfig) img cap vid,
        env.convertImage config.imageUrl = .ok img →
        env.generateCaption config.imageUrl workflowCaptionOptions = .ok cap →
        env.generateVideo ⟨img, HARDCODED_VIDEO_PROMPT, jsOrD config.videoDuration "5"⟩
          = .ok vid →
        (executeCompleteWorkflow env config).success = true ∧
          (executeCompleteWorkflow env config).finalOutput.isSome = true) ∧
    (∀ (env : Collaborators) (config : WorkflowConfig),
        (executeCompleteWorkflow env config).finalOutput.isSome = true ↔
          (executeCompleteWorkflow env config).success = true) := by
  constructor
  · intro env config img cap vid h1 h2 h3
    simp only [executeCompleteWorkflow, h1, h2, h3]
    repeat' split
    all_goals simp
  · intro env config
    simp only [executeCompleteWorkflow]
    repeat' split
    all_goals simp [abortResult]

/-- Witness for C1 at the all-success stub. -/
theorem workflow_c1_witness :
    (executeCompleteWorkflow stubEnv cfgNoAuto).success = true ∧
      (executeCompleteWorkflow stubEnv cfgNoAuto).finalOutput.isSome = true :=
  workflow_c1.1 stubEnv cfgNoAuto "IMG64" ⟨"Hello", ["#a", "#b"]⟩
    ⟨"https://v/1.mp4", "T1"⟩ rfl rfl rfl

/-- C2: when a required step fails, `executeCompleteWorkflow` still
returns (a value, not a throw) with `success = false` and no
`finalOutput`; the full record equalities show that every step after the
failing one still holds its initial `{ success: false }` placeholder
(untouched), while the outcomes recorded before the failure are
retained. -/
theorem workflow_c2 :
    (∀ (env : Collaborators) (config : WorkflowConfig) e,
        env.convertImage config.imageUrl = .error e →
        executeCompleteWorkflow env config =
          abortResult env
            { initSteps with imageConversion := ⟨false, none, some e⟩ }) ∧
    (∀ (env : Collaborators) (config : WorkflowConfig) img e,
        env.convertImage config.imageUrl = .ok img →
        env.generateCaption config.imageUrl workflowCaptionOptions = .error e →
        executeCompleteWorkflow env config =
          abortResult env
            { initSteps with
                imageConversion := ⟨true, some ⟨img⟩, none⟩,
                promptGeneration := ⟨true, some ⟨HARDCODED_VIDEO_PROMPT⟩, none⟩,
                captionGeneration := ⟨false, none, some e⟩ }) ∧
    (∀ (env : Collaborators) (config : WorkflowConfig) img cap e,
        env.convertImage config.imageUrl = .ok img →
        env.generateCaption config.imageUrl workflowCaptionOptions = .ok cap →
        env.generateVideo ⟨img, HARDCODED_VIDEO_PROMPT, jsOrD config.videoDuration "5"⟩
          = .error e →
        executeCompleteWorkflow env config =
          abortResult env
            { initSteps with
                imageConversion := ⟨true, some ⟨img⟩, none⟩,
                promptGeneration := ⟨true, some ⟨HARDCODED_VIDEO_PROMPT⟩, none⟩,
                captionGeneration := ⟨true, some cap, none⟩,
                videoGeneration := ⟨false, none, some e⟩ }) := by
  refine ⟨?_, ?_, ?_⟩
  · intro env config e h1
    simp [executeCompleteWorkflow, h1]
  · intro env config img e h1 h2
    simp [executeCompleteWorkflow, h1, h2]
  · intro env config img cap e h1 h2 h3
    simp [executeCompleteWorkflow, h1, h2, h3]

/-- Witness for C2: the spec's video-failure scenario. -/
theorem workflow_c2_witness :
    executeCompleteWorkflow stubEnvVideoFail cfgNoAuto =
      abortResult stubEnvVideoFail
        { initSteps with
            imageConversion := ⟨true, some ⟨"IMG64"⟩, none⟩,
            promptGeneration := ⟨true, some ⟨HARDCODED_VIDEO_PROMPT⟩, none⟩,
            captionGeneration := ⟨true, some ⟨"Hello", ["#a", "#b"]⟩, none⟩,
            videoGeneration := ⟨false, none, some "boom"⟩ } :=
  workflow_c2.2.2 stubEnvVideoFail cfgNoAuto "IMG64" ⟨"Hello", ["#a", "#b"]⟩
    "boom" rfl rfl rfl

/-- C9: step 2 can never fail — whenever step 1 succeeds, the
`promptGeneration` slot records success with exactly the hardcoded prompt
constant (no oracle field of `Collaborators` is consulted for this step),
and `finalOutput.prompt`, when present, equals that same constant. -/
theorem workflow_c9 :
    (∀ (env : Collaborators) (config : WorkflowConfig),
        (executeCompleteWorkflow env config).steps.imageConversion.success = true →
        (executeCompleteWorkflow env config).steps.promptGeneration =
          ⟨true, some ⟨HARDCODED_VIDEO_PROMPT⟩, none⟩) ∧
    (∀ (env : Collaborators) (config : WorkflowConfig) fo,
        (executeCompleteWorkflow env config).finalOutput = some fo →
        fo.prompt = HARDCODED_VIDEO_PROMPT) := by
  constructor
  · intro env config h
    cases h1 : env.convertImage config.imageUrl with
    | error e =>
        simp only [executeCompleteWorkflow, h1] at h
        simp [abortResult, initSteps, initStep] at h
    | ok img =>
        simp only [executeCompleteWorkflow, h1]
        repeat' split
        all_goals simp [abortResult]
  · intro env config fo
    simp only [executeCompleteWorkflow]
    repeat' split
    all_goals intro h
    all_goals try simp only [abortResult] at h
    all_goals first
      | exact Option.noConfusion h
      | (injection h with h2; subst h2; rfl)

/-- Witness for C9 at the all-success stub. -/
theorem workflow_c9_witness :
    (executeCompleteWorkflow stubEnv cfgNoAuto).steps.promptGeneration =
      ⟨true, some ⟨HARDCODED_VIDEO_PROMPT⟩, none⟩ :=
  workflow_c9.1 stubEnv cfgNoAuto rfl

/-- C6: whenever a `finalOutput` is assembled, its `instagramPublished`
flag equals "step 6 succeeded and was not the skipped variant"; and the
concrete skip scenario (`autoPublishToInstagram = false`, leaves succeed)
yields overall success with the skipped marker and
`instagramPublished = false`. -/
theorem workflow_c6 :
    (∀ (env : Collaborators) (config : WorkflowConfig) fo,
        (executeCompleteWorkflow env config).finalOutput = some fo →
        fo.instagramPublished =
          ((executeCompleteWorkflow env config).steps.instagramUpload.success &&
            !(dataSkipped (executeCompleteWorkflow env config).steps.instagramUpload.data))) ∧
    (∀ (env : Collaborators) (config : WorkflowConfig) img cap vid,
        config.autoPublishToInstagram = some false →
        env.convertImage config.imageUrl = .ok img →
        env.generateCaption config.imageUrl workflowCaptionOptions = .ok cap →
        env.generateVideo ⟨img, HARDCODED_VIDEO_PROMPT, jsOrD config.videoDuration "5"⟩
          = .ok vid →
        (executeCompleteWorkflow env config).success = true ∧
          (executeCompleteWorkflow env config).steps.instagramUpload =
            ⟨true, some (.skipped "autoPublishToInstagram disabled"), none⟩ ∧
          ((executeCompleteWorkflow env config).finalOutput.map
              (·.instagramPublished)) = some false) := by
  constructor
  · intro env config fo
    simp only [executeCompleteWorkflow]
    repeat' split
    all_goals intro h
    all_goals try simp only [abortResult] at h
    all_goals first
      | exact Option.noConfusion h
      | (injection h with h2; subst h2; rfl)
  · intro env config img cap vid hauto h1 h2 h3
    simp only [executeCompleteWorkflow, h1, h2, h3, hauto]
    repeat' split
    all_goals simp_all [dataSkipped]

/-- Witness for C6 at the skip scenario. -/
theorem workflow_c6_witness :
    (executeCompleteWorkflow stubEnv cfgNoAuto).success = true ∧
      (executeCompleteWorkflow stubEnv cfgNoAuto).steps.instagramUpload =
        ⟨true, some (.skipped "autoPublishToInstagram disabled"), none⟩ ∧
      ((executeCompleteWorkflow stubEnv cfgNoAuto).finalOutput.map
          (·.instagramPublished)) = some false :=
  workflow_c6.2 stubEnv cfgNoAuto "IMG64" ⟨"Hello", ["#a", "#b"]⟩
    ⟨"https://v/1.mp4", "T1"⟩ rfl rfl rfl rfl

/-- The spec's concrete config with auto-publish enabled. -/
def cfgAuto : WorkflowConfig :=
  ⟨"https://x/img.jpg", some "a@b.com", some "5", some true⟩

/-- A create-container stub that echoes the caption it was handed into
the result message, to observe which caption string each entry point
forwards to the register. -/
def echoCreate : String → String → Except String InstaResult :=
  fun _ cap => .ok ⟨true, some "C1", cap⟩

/-- Projection of the message stored in a step-6 data record. -/
def instaMessage : Option InstaStepData → Option String
  | some (.created _ m _ _) => some m
  | _ => none

/-- Collaborators whose caption step yields caption `c` with no hashtags
and whose register echoes the forwarded caption. -/
def envEcho (c : String) : Collaborators :=
  { stubEnv with
      generateCaption := fun _ _ => .ok ⟨c, []⟩
      createContainer := echoCreate }

/-- C5: the approval callback forwards caption + blank line + hashtags
joined by single spaces exactly when the hashtag list is non-empty (the
caption alone otherwise), surfaces the register's result unchanged, and
converts a register exception into a `{ success: false, message }` value. -/
theorem approval_callback_c5 :
    (∀ (f : String → String → Except String InstaResult) v c h r,
        f v (approvalFullCaption c h) = .ok r →
        handleEmailApprovalWithInstagram f v c h = r) ∧
    (∀ (f : String → String → Except String InstaResult) v c h e,
        f v (approvalFullCaption c h) = .error e →
        handleEmailApprovalWithInstagram f v c h =
          ⟨false, none, "Failed to upload to Instagram: " ++ e⟩) ∧
    (∀ c h, h ≠ [] →
        approvalFullCaption c h = c ++ "\n\n" ++ String.intercalate " " h) ∧
    (∀ c, approvalFullCaption c [] = c) := by
  refine ⟨?_, ?_, ?_, ?_⟩
  · intro f v c h r hf
    simp [handleEmailApprovalWithInstagram, hf]
  · intro f v c h e hf
    simp [handleEmailApprovalWithInstagram, hf]
  · intro c h hne
    simp [approvalFullCaption, hne]
  · intro c
    simp [approvalFullCaption]

/-- Witness for C5: the spec's concrete scenario with a platform stub
returning id C1. -/
theorem approval_callback_c5_witness :
    handleEmailApprovalWithInstagram stubEnv.createContainer "https://v/1.mp4"
        "Hello" ["#a", "#b"] =
      ⟨true, some "C1",
        "Instagram container created successfully. Will be published in 1 minute."⟩ :=
  approval_callback_c5.1 stubEnv.createContainer "https://v/1.mp4" "Hello"
    ["#a", "#b"] _ rfl

/-- C10: the two caption-assembly paths agree on every non-empty hashtag
list and disagree on every empty one — step 6 always appends the blank
line, the approval callback only for non-empty lists; the third conjunct
observes the discrepancy through the two real entry points with an
echoing register stub. -/
theorem caption_paths_c10 :
    (∀ c, pipelineFullCaption c [] ≠ approvalFullCaption c []) ∧
    (∀ c h, h ≠ [] → pipelineFullCaption c h = approvalFullCaption c h) ∧
    (∀ c,
        instaMessage
            ((executeCompleteWorkflow (envEcho c) cfgAuto).steps.instagramUpload.data) =
          some (pipelineFullCaption c []) ∧
        (handleEmailApprovalWithInstagram echoCreate "https://v/1.mp4" c []).message =
          approvalFullCaption c []) := by
  refine ⟨?_, ?_, ?_⟩
  · intro c h
    have hi : String.intercalate " " ([] : List String) = "" := rfl
    have ha : approvalFullCaption c [] = c := by simp [approvalFullCaption]
    rw [pipelineFullCaption, hi, ha] at h
    have hl := congrArg String.length h
    have h2 : ("\n\n" ++ "" : String).length = 2 := by decide
    rw [String.length_append, String.length_append] at hl
    rw [String.length_append] at h2
    omega
  · intro c h hne
    rw [pipelineFullCaption, approvalFullCaption,
      if_pos (List.length_pos.mpr hne)]
  · intro c
    exact ⟨rfl, rfl⟩

/-- Witness for C10 on a concrete non-empty hashtag list. -/
theorem caption_paths_c10_witness :
    pipelineFullCaption "Hello" ["#a", "#b"] =
      approvalFullCaption "Hello" ["#a", "#b"] :=
  caption_paths_c10.2.1 "Hello" ["#a", "#b"] (by decide)

/-- C8 counterexample: when every attempt fails, both senders perform
waits of 2000 ms and 4000 ms only — no 6000 ms wait ever occurs, contrary
to the claimed 2s/4s/6s backoff sequence. -/
theorem email_retry_c8_counterexample :
    (sendContentDeliveryEmail (fun _ => some "smtp down")).1 = [2000, 4000] ∧
    (sendContentDeliveryEmail (fun _ => some "smtp down")).1 ≠ [2000, 4000, 6000] ∧
    (sendApprovalEmail (fun _ => some "smtp down")).1 = [2000, 4000] := by
  refine ⟨rfl, by decide, rfl⟩

/-- C8 (amended): both senders make at most 3 attempts, return on the
first successful attempt, wait `attempt * 2000` ms only after a failed
non-final attempt (so 2s after the first failure and 4s after the second,
never 6s), and raise — with the last error in the message — only after
all 3 attempts have failed. -/
theorem email_retry_c8 :
    (∀ f, f 1 = none → sendContentDeliveryEmail f = ([], .ok ())) ∧
    (∀ f e, f 1 = some e → f 2 = none →
        sendContentDeliveryEmail f = ([2000], .ok ())) ∧
    (∀ f e1 e2, f 1 = some e1 → f 2 = some e2 → f 3 = none →
        sendContentDeliveryEmail f = ([2000, 4000], .ok ())) ∧
    (∀ f e1 e2 e3, f 1 = some e1 → f 2 = some e2 → f 3 = some e3 →
        sendContentDeliveryEmail f =
          ([2000, 4000], .error ("Email delivery failed after 3 attempts: " ++ e3))) ∧
    (∀ f, f 1 = none → sendApprovalEmail f = ([], .ok ())) ∧
    (∀ f e1 e2 e3, f 1 = some e1 → f 2 = some e2 → f 3 = some e3 →
        sendApprovalEmail f =
          ([2000, 4000],
            .error ("Approval email delivery failed after 3 attempts: " ++ e3))) := by
  refine ⟨?_, ?_, ?_, ?_, ?_, ?_⟩
  · intro f h1
    simp [sendContentDeliveryEmail, retryGo, h1]
  · intro f e h1 h2
    simp [sendContentDeliveryEmail, retryGo, h1, h2]
  · intro f e1 e2 h1 h2 h3
    simp [sendContentDeliveryEmail, retryGo, h1, h2, h3]
  · intro f e1 e2 e3 h1 h2 h3
    simp [sendContentDeliveryEmail, retryGo, h1, h2, h3]
  · intro f h1
    simp [sendApprovalEmail, retryGo, h1]
  · intro f e1 e2 e3 h1 h2 h3
    simp [sendApprovalEmail, retryGo, h1, h2, h3]

/-- Witness for C8 (amended) at a first-attempt success. -/
theorem email_retry_c8_witness :
    sendContentDeliveryEmail (fun _ => none) = ([], .ok ()) :=
  email_retry_c8.1 (fun _ => none) rfl

/-- C3: `createInstagramContainer` returns (never raises) the
`{ success: false, message }` shape on every failure path; with a missing
credential it returns synchronously with zero network calls, and after a
network call it distinguishes a platform-reported error (Instagram API
error with text, type and code) from a transport/unknown one (Failed to
create prefix with the thrown message). -/
theorem register_c3 :
    (∀ (env : CreateEnv) v c now, jsTruthy env.accessToken = false →
        createInstagramContainer env v c now =
          ⟨⟨false, none,
              "Failed to create Instagram container: INSTAGRAM_ACCESS_TOKEN environment variable is not set"⟩,
            0, none⟩) ∧
    (∀ (env : CreateEnv) v c now, jsTruthy env.accessToken = true →
        jsTruthy env.instagramId = false →
        createInstagramContainer env v c now =
          ⟨⟨false, none,
              "Failed to create Instagram container: INSTAGRAM_ACCOUNT_ID environment variable is not set"⟩,
            0, none⟩) ∧
    (∀ (env : CreateEnv) v c now m ge, jsTruthy env.accessToken = true →
        jsTruthy env.instagramId = true → env.postMedia = .axiosErr m ge →
        createInstagramContainer env v c now =
          ⟨⟨false, none, axiosErrorMessage m ge⟩, 1, none⟩) ∧
    (∀ (env : CreateEnv) v c now m, jsTruthy env.accessToken = true →
        jsTruthy env.instagramId = true → env.postMedia = .otherErr m →
        createInstagramContainer env v c now =
          ⟨⟨false, none, "Failed to create Instagram container: " ++ m⟩, 1, none⟩) := by
  refine ⟨?_, ?_, ?_, ?_⟩
  · intro env v c now h1
    simp [createInstagramContainer, h1]
  · intro env v c now h1 h2
    simp [createInstagramContainer, h1, h2]
  · intro env v c now m ge h1 h2 h3
    simp [createInstagramContainer, h1, h2, h3]
  · intro env v c now m h1 h2 h3
    simp [createInstagramContainer, h1, h2, h3]

/-- Witness for C3 at a missing access token. -/
theorem register_c3_witness :
    createInstagramContainer ⟨none, some "ID", .ok (some "C1")⟩ "v" "c" 0 =
      ⟨⟨false, none,
          "Failed to create Instagram container: INSTAGRAM_ACCESS_TOKEN environment variable is not set"⟩,
        0, none⟩ :=
  register_c3.1 ⟨none, some "ID", .ok (some "C1")⟩ "v" "c" 0 rfl

/-! ## Association-list facts for the register's container map -/

lemma lookup_append (m l : List (String × ContainerInfo)) (k : String) :
    (m ++ l).lookup k =
      match m.lookup k with
      | some v => some v
      | none => l.lookup k := by
  induction m with
  | nil => rfl
  | cons p t ih =>
      cases hp : (k == p.1) <;> simp [List.lookup, hp, ih]

lemma lookup_eq_none (m : List (String × ContainerInfo)) (k : String)
    (h : k ∉ m.map Prod.fst) : m.lookup k = none := by
  induction m with
  | nil => rfl
  | cons p t ih =>
      simp only [List.map_cons, List.mem_cons, not_or] at h
      have hp : (k == p.1) = false := by
        simpa [beq_eq_false_iff_ne] using h.1
      simp [List.lookup, hp, ih h.2]

lemma mem_keys_of_lookup (m : List (String × ContainerInfo)) (k : String)
    (v : ContainerInfo) (h : m.lookup k = some v) : k ∈ m.map Prod.fst := by
  by_contra hk
  rw [lookup_eq_none m k hk] at h
  exact Option.noConfusion h

lemma mem_of_lookup (m : List (String × ContainerInfo)) (k : String)
    (v : ContainerInfo) (h : m.lookup k = some v) : (k, v) ∈ m := by
  induction m with
  | nil => exact Option.noConfusion h
  | cons p t ih =>
      cases p with
      | mk pk pv =>
          cases hp : (k == pk)
          · simp only [List.lookup, hp] at h
            exact List.mem_cons_of_mem _ (ih h)
          · simp only [List.lookup, hp, Option.some.injEq] at h
            have hk : k = pk := by simpa using hp
            subst hk; subst h
            exact List.mem_cons_self _ _

lemma exists_lookup_of_mem_keys (m : List (String × ContainerInfo))
    (k : String) (h : k ∈ m.map Prod.fst) : ∃ v, m.lookup k = some v := by
  induction m with
  | nil => simp at h
  | cons p t ih =>
      cases hp : (k == p.1)
      · have ht : k ∈ t.map Prod.fst := by
          simp only [List.map_cons, List.mem_cons] at h
          rcases h with h | h
          · exact absurd h (by simpa [beq_eq_false_iff_ne] using hp)
          · exact h
        obtain ⟨v, hv⟩ := ih ht
        exact ⟨v, by simp [List.lookup, hp, hv]⟩
      · exact ⟨p.2, by simp [List.lookup, hp]⟩

lemma any_keys (m : List (String × ContainerInfo)) (k : String) :
    m.any (fun p => p.1 == k) = true ↔ k ∈ m.map Prod.fst := by
  simp [List.any_eq_true, beq_iff_eq, List.mem_map]

lemma setEntry_not_mem (m : List (String × ContainerInfo)) (k : String)
    (v : ContainerInfo) (h : k ∉ m.map Prod.fst) :
    setEntry m k v = m ++ [(k, v)] := by
  have ha : m.any (fun p => p.1 == k) = false := by
    rw [← Bool.not_eq_true, any_keys]
    exact h
  rw [setEntry, ha, cond_false]

lemma lookup_map_replace (m : List (String × ContainerInfo)) (k : String)
    (v : ContainerInfo) :
    (m.map (fun p => bif p.1 == k then (k, v) else p)).lookup k =
      (m.lookup k).map (fun _ => v) := by
  induction m with
  | nil => rfl
  | cons p t ih =>
      cases hp : (p.1 == k)
      · have hkp : (k == p.1) = false := by
          rw [beq_eq_false_iff_ne] at hp ⊢
          exact fun e => hp e.symm
        simp [List.lookup, hp, hkp, ih]
      · obtain ⟨pk, pv⟩ := p
        simp only at hp
        have hk : pk = k := by simpa using hp
        subst hk
        simp [List.lookup, hp]

lemma lookup_map_replace_ne (m : List (String × ContainerInfo)) (k : String)
    (v : ContainerInfo) (k' : String) (h : k' ≠ k) :
    (m.map (fun p => bif p.1 == k then (k, v) else p)).lookup k' =
      m.lookup k' := by
  induction m with
  | nil => rfl
  | cons p t ih =>
      cases hp : (p.1 == k)
      · cases hk : (k' == p.1) <;> simp [List.lookup, hp, hk, ih]
      · obtain ⟨pk, pv⟩ := p
        simp only at hp
        have hpk : pk = k := by simpa using hp
        subst hpk
        have hk' : (k' == pk) = false := by simpa [beq_eq_false_iff_ne] using h
        simp [List.lookup, hp, hk', ih]

lemma lookup_setEntry_self (m : List (String × ContainerInfo)) (k : String)
    (v : ContainerInfo) : (setEntry m k v).lookup k = some v := by
  by_cases h : k ∈ m.map Prod.fst
  · rw [setEntry, (any_keys m k).mpr h, cond_true, lookup_map_replace]
    obtain ⟨w, hw⟩ := exists_lookup_of_mem_keys m k h
    rw [hw]
    rfl
  · rw [setEntry_not_mem m k v h, lookup_append, lookup_eq_none m k h]
    simp [List.lookup]

lemma lookup_setEntry_ne (m : List (String × ContainerInfo)) (k : String)
    (v : ContainerInfo) (k' : String) (h : k' ≠ k) :
    (setEntry m k v).lookup k' = m.lookup k' := by
  rw [setEntry]
  cases ha : m.any (fun p => p.1 == k)
  · have hk' : (k' == k) = false := by simpa [beq_eq_false_iff_ne] using h
    rw [cond_false, lookup_append]
    cases hl : m.lookup k' <;> simp [List.lookup, hk']
  · rw [cond_true]
    exact lookup_map_replace_ne m k v k' h

lemma keys_setEntry_mem (m : List (String × ContainerInfo)) (k : String)
    (v : ContainerInfo) (h : k ∈ m.map Prod.fst) :
    (setEntry m k v).map Prod.fst = m.map Prod.fst := by
  rw [setEntry, (any_keys m k).mpr h, cond_true, List.map_map]
  refine List.map_congr_left ?_
  intro p _
  cases h2 : (p.1 == k)
  · simp [Function.comp, h2]
  · have hpk : p.1 = k := by simpa using h2
    simp [Function.comp, h2, hpk]

lemma keys_setEntry_not_mem (m : List (String × ContainerInfo)) (k : String)
    (v : ContainerInfo) (h : k ∉ m.map Prod.fst) :
    (setEntry m k v).map Prod.fst = m.map Prod.fst ++ [k] := by
  rw [setEntry_not_mem m k v h, List.map_append]
  rfl

/-! ## Register state-machine invariants -/

lemma stored_processing (env : CreateEnv) (v c : String) (now : Nat)
    (ci : ContainerInfo) :
    (createInstagramContainer env v c now).stored = some ci →
    ci.status = .processing := by
  simp only [createInstagramContainer]
  repeat' split
  all_goals intro h
  all_goals first
    | exact Option.noConfusion h
    | (injection h with h2; subst h2; rfl)

lemma publishOutcome_cases (env : PublishEnv) :
    publishOutcome env = .published ∨ publishOutcome env = .failed := by
  rw [publishOutcome]
  repeat' split
  all_goals simp

/-- Invariant maintained by every admissible register trace: stored
statuses are only ever processing, published or failed; container keys
and armed timers are duplicate-free; and every armed timer points at a
stored container still in the processing state. -/
structure RegInv (st : RegState) : Prop where
  statusOk : ∀ p ∈ st.containers,
    p.2.status = .processing ∨ p.2.status = .published ∨ p.2.status = .failed
  keysNodup : (st.containers.map Prod.fst).Nodup
  timersNodup : st.pendingTimers.Nodup
  timersProc : ∀ id ∈ st.pendingTimers,
    ∃ ci, st.containers.lookup id = some ci ∧ ci.status = .processing

lemma regInv_init : RegInv initRegState := by
  constructor <;> simp [initRegState]

lemma regInv_step {st : RegState} {e : RegEvent} (h : RegInv st)
    (hok : okEvent st e = true) : RegInv (stepReg st e) := by
  cases e with
  | create env v c now =>
      cases hs : (createInstagramContainer env v c now).stored with
      | none => simpa [stepReg, hs] using h
      | some ci =>
          have hproc : ci.status = .processing :=
            stored_processing env v c now ci hs
          have hfresh : ci.containerId ∉ st.containers.map Prod.fst := by
            simp only [okEvent, hs] at hok
            rw [Bool.not_eq_true'] at hok
            intro hmem
            rw [(any_keys _ _).mpr hmem] at hok
            exact Bool.noConfusion hok
          constructor
          · intro p hp
            simp only [stepReg, hs] at hp
            rw [setEntry_not_mem _ _ _ hfresh] at hp
            rcases List.mem_append.mp hp with hold | hnew
            · exact h.statusOk p hold
            · have hpv : p = (ci.containerId, ci) := by simpa using hnew
              subst hpv
              exact Or.inl hproc
          · simp only [stepReg, hs]
            rw [keys_setEntry_not_mem _ _ _ hfresh, List.nodup_append]
            refine ⟨h.keysNodup, List.nodup_singleton _, ?_⟩
            intro a ha hb
            rw [List.mem_singleton] at hb
            subst hb
            exact hfresh ha
          · simp only [stepReg, hs]
            rw [List.nodup_cons]
            refine ⟨?_, h.timersNodup⟩
            intro hmem
            obtain ⟨ci', hci', _⟩ := h.timersProc _ hmem
            exact hfresh (mem_keys_of_lookup _ _ _ hci')
          · intro id hid
            simp only [stepReg, hs] at hid ⊢
            rcases List.mem_cons.mp hid with rfl | hmem
            · exact ⟨ci, lookup_setEntry_self _ _ _, hproc⟩
            · obtain ⟨ci', hci', hproc'⟩ := h.timersProc _ hmem
              have hne : id ≠ ci.containerId := by
                intro heq
                subst heq
                exact hfresh (mem_keys_of_lookup _ _ _ hci')
              refine ⟨ci', ?_, hproc'⟩
              rw [lookup_setEntry_ne _ _ _ _ hne]
              exact hci'
  | timerFires idf penv =>
      cases hlf : st.containers.lookup idf with
      | none =>
          constructor
          · intro p hp
            simp only [stepReg, hlf] at hp
            exact h.statusOk p hp
          · simp only [stepReg, hlf]
            exact h.keysNodup
          · simp only [stepReg, hlf]
            exact h.timersNodup.erase _
          · intro id' hid'
            simp only [stepReg, hlf] at hid' ⊢
            exact h.timersProc id' (List.mem_of_mem_erase hid')
      | some ci0 =>
          have hmemk : idf ∈ st.containers.map Prod.fst :=
            mem_keys_of_lookup _ _ _ hlf
          constructor
          · intro p hp
            simp only [stepReg, hlf] at hp
            rw [setEntry, (any_keys _ _).mpr hmemk, cond_true] at hp
            obtain ⟨q, hq, hfq⟩ := List.mem_map.mp hp
            cases hqk : (q.1 == idf) with
            | false =>
                rw [hqk, cond_false] at hfq
                subst hfq
                exact h.statusOk q hq
            | true =>
                rw [hqk, cond_true] at hfq
                subst hfq
                rcases publishOutcome_cases penv with hp1 | hp1 <;> simp [hp1]
          · simp only [stepReg, hlf]
            rw [keys_setEntry_mem _ _ _ hmemk]
            exact h.keysNodup
          · simp only [stepReg, hlf]
            exact h.timersNodup.erase _
          · intro id' hid'
            simp only [stepReg, hlf] at hid' ⊢
            obtain ⟨hne, hmem⟩ := (List.Nodup.mem_erase_iff h.timersNodup).mp hid'
            obtain ⟨ci', hci', hproc'⟩ := h.timersProc _ hmem
            refine ⟨ci', ?_, hproc'⟩
            rw [lookup_setEntry_ne _ _ _ _ hne]
            exact hci'

lemma regInv_run : ∀ (tr : List RegEvent) (st : RegState), RegInv st →
    wfTrace st tr = true → RegInv (runReg st tr) := by
  intro tr
  induction tr with
  | nil =>
      intro st h _
      simpa [runReg] using h
  | cons e es ih =>
      intro st h hwf
      rw [wfTrace, Bool.and_eq_true] at hwf
      exact ih _ (regInv_step h hwf.1) hwf.2

lemma runReg_append (tr : List RegEvent) (e : RegEvent) :
    ∀ st, runReg st (tr ++ [e]) = stepReg (runReg st tr) e := by
  induction tr with
  | nil => intro st; rfl
  | cons f fs ih => intro st; exact ih (stepReg st f)

lemma wfTrace_append (tr : List RegEvent) (e : RegEvent) :
    ∀ st, wfTrace st (tr ++ [e]) =
      (wfTrace st tr && okEvent (runReg st tr) e) := by
  induction tr with
  | nil => intro st; simp [wfTrace, runReg]
  | cons f fs ih =>
      intro st
      show (okEvent st f && wfTrace (stepReg st f) (fs ++ [e])) = _
      rw [ih (stepReg st f), ← Bool.and_assoc]
      rfl

lemma step_lookup_none_processing {st : RegState} {e : RegEvent}
    {id : String} {ci : ContainerInfo}
    (h0 : st.containers.lookup id = none)
    (h1 : (stepReg st e).containers.lookup id = some ci) :
    ci.status = .processing := by
  cases e with
  | create env v c now =>
      cases hs : (createInstagramContainer env v c now).stored with
      | none =>
          simp only [stepReg, hs] at h1
          rw [h0] at h1
          exact Option.noConfusion h1
      | some ciN =>
          simp only [stepReg, hs] at h1
          by_cases hid : id = ciN.containerId
          · subst hid
            rw [lookup_setEntry_self] at h1
            injection h1 with h2
            subst h2
            exact stored_processing env v c now _ hs
          · rw [lookup_setEntry_ne _ _ _ _ hid, h0] at h1
            exact Option.noConfusion h1
  | timerFires idf penv =>
      cases hlf : st.containers.lookup idf with
      | none =>
          simp only [stepReg, hlf] at h1
          rw [h0] at h1
          exact Option.noConfusion h1
      | some ci0 =>
          simp only [stepReg, hlf] at h1
          by_cases hid : id = idf
          · subst hid
            rw [h0] at hlf
            exact Option.noConfusion hlf
          · rw [lookup_setEntry_ne _ _ _ _ hid, h0] at h1
            exact Option.noConfusion h1

lemma step_change {st : RegState} {e : RegEvent} (h : RegInv st)
    (hok : okEvent st e = true) {id : String} {ci ci' : ContainerInfo}
    (h0 : st.containers.lookup id = some ci)
    (h1 : (stepReg st e).containers.lookup id = some ci') :
    ci' = ci ∨
      (ci.status = .processing ∧
        (ci' = { ci with status := .published } ∨
          ci' = { ci with status := .failed })) := by
  cases e with
  | create env v c now =>
      cases hs : (createInstagramContainer env v c now).stored with
      | none =>
          simp only [stepReg, hs] at h1
          rw [h0] at h1
          injection h1 with h2
          exact Or.inl h2.symm
      | some ciN =>
          have hfresh : ciN.containerId ∉ st.containers.map Prod.fst := by
            simp only [okEvent, hs] at hok
            rw [Bool.not_eq_true'] at hok
            intro hmem
            rw [(any_keys _ _).mpr hmem] at hok
            exact Bool.noConfusion hok
          have hne : id ≠ ciN.containerId := by
            intro heq
            subst heq
            exact hfresh (mem_keys_of_lookup _ _ _ h0)
          simp only [stepReg, hs] at h1
          rw [lookup_setEntry_ne _ _ _ _ hne, h0] at h1
          injection h1 with h2
          exact Or.inl h2.symm
  | timerFires idf penv =>
      cases hlf : st.containers.lookup idf with
      | none =>
          simp only [stepReg, hlf] at h1
          rw [h0] at h1
          injection h1 with h2
          exact Or.inl h2.symm
      | some ci0 =>
          simp only [stepReg, hlf] at h1
          by_cases hid : id = idf
          · subst hid
            have hmemt : id ∈ st.pendingTimers := by
              simp only [okEvent] at hok
              simpa using hok
            obtain ⟨cip, hcip, hprocp⟩ := h.timersProc _ hmemt
            rw [h0] at hcip
            injection hcip with hcipe
            rw [h0] at hlf
            injection hlf with hlfe
            subst hlfe
            rw [lookup_setEntry_self] at h1
            injection h1 with h2
            subst h2
            refine Or.inr ⟨by rw [hcipe]; exact hprocp, ?_⟩
            rcases publishOutcome_cases penv with hp1 | hp1 <;> simp [hp1]
          · rw [lookup_setEntry_ne _ _ _ _ hid, h0] at h1
            injection h1 with h2
            exact Or.inl h2.symm

lemma step_mono {st : RegState} {e : RegEvent} {id : String}
    {ci : ContainerInfo} (h0 : st.containers.lookup id = some ci) :
    ∃ ci', (stepReg st e).containers.lookup id = some ci' := by
  cases e with
  | create env v c now =>
      cases hs : (createInstagramContainer env v c now).stored with
      | none => exact ⟨ci, by simpa [stepReg, hs] using h0⟩
      | some ciN =>
          by_cases hid : id = ciN.containerId
          · subst hid
            exact ⟨ciN, by simp only [stepReg, hs]; exact lookup_setEntry_self _ _ _⟩
          · refine ⟨ci, ?_⟩
            simp only [stepReg, hs]
            rw [lookup_setEntry_ne _ _ _ _ hid]
            exact h0
  | timerFires idf penv =>
      cases hlf : st.containers.lookup idf with
      | none => exact ⟨ci, by simpa [stepReg, hlf] using h0⟩
      | some ci0 =>
          by_cases hid : id = idf
          · subst hid
            exact ⟨{ ci0 with status := publishOutcome penv },
              by simp only [stepReg, hlf]; exact lookup_setEntry_self _ _ _⟩
          · refine ⟨ci, ?_⟩
            simp only [stepReg, hlf]
            rw [lookup_setEntry_ne _ _ _ _ hid]
            exact h0

lemma step_terminal {st : RegState} {e : RegEvent} (h : RegInv st)
    (hok : okEvent st e = true) {id : String} {ci : ContainerInfo}
    (h0 : st.containers.lookup id = some ci)
    (hterm : ci.status = .published ∨ ci.status = .failed) :
    (stepReg st e).containers.lookup id = some ci := by
  obtain ⟨ci', h1⟩ := step_mono (e := e) h0
  rcases step_change h hok h0 h1 with heq | ⟨hp, _⟩
  · rw [h1, heq]
  · rw [hp] at hterm
    rcases hterm with hc | hc <;> exact ContainerStatus.noConfusion hc

/-- A create environment with both credentials present and the platform
returning id C1. -/
def cEnvOk : CreateEnv := ⟨some "TOK", some "ID", .ok (some "C1")⟩

/-- A publish environment whose confirm call succeeds with media id M1. -/
def pEnvOk : PublishEnv := ⟨some "TOK", some "ID", .ok (some "M1")⟩

/-- A successful create event for container C1. -/
def evCreateC1 : RegEvent := .create cEnvOk "https://v/1.mp4" "Hello" 100

/-- The container C1 as stored right after `evCreateC1`. -/
def ciC1 : ContainerInfo := ⟨"C1", "https://v/1.mp4", "Hello", 100, .processing⟩

/-- C4: along every admissible trace from the empty register (timers fire
only once armed, platform-issued ids are fresh), every container enters
the table with status `processing`; no stored container is ever `pending`
or `ready`; the only changes a step can make to a stored container are
`processing → published` and `processing → failed`; a `published` or
`failed` container is never changed again; and containers are never
deleted. -/
theorem register_c4 :
    (∀ tr e, wfTrace initRegState (tr ++ [e]) = true →
        ∀ id ci,
          (runReg initRegState tr).containers.lookup id = none →
          (runReg initRegState (tr ++ [e])).containers.lookup id = some ci →
          ci.status = .processing) ∧
    (∀ tr, wfTrace initRegState tr = true →
        ∀ id ci,
          (runReg initRegState tr).containers.lookup id = some ci →
          ci.status ≠ .pending ∧ ci.status ≠ .ready) ∧
    (∀ tr e, wfTrace initRegState (tr ++ [e]) = true →
        ∀ id ci ci',
          (runReg initRegState tr).containers.lookup id = some ci →
          (runReg initRegState (tr ++ [e])).containers.lookup id = some ci' →
          ci' ≠ ci →
          ci.status = .processing ∧
            (ci' = { ci with status := .published } ∨
              ci' = { ci with status := .failed })) ∧
    (∀ tr e, wfTrace initRegState (tr ++ [e]) = true →
        ∀ id ci,
          (runReg initRegState tr).containers.lookup id = some ci →
          ci.status = .published ∨ ci.status = .failed →
          (runReg initRegState (tr ++ [e])).containers.lookup id = some ci) ∧
    (∀ tr e, wfTrace initRegState (tr ++ [e]) = true →
        ∀ id ci,
          (runReg initRegState tr).containers.lookup id = some ci →
          ∃ ci',
            (runReg initRegState (tr ++ [e])).containers.lookup id = some ci') := by
  refine ⟨?_, ?_, ?_, ?_, ?_⟩
  · intro tr e hwf id ci h0 h1
    rw [runReg_append] at h1
    exact step_lookup_none_processing h0 h1
  · intro tr hwf id ci h0
    have hinv := regInv_run tr initRegState regInv_init hwf
    have hs := hinv.statusOk (id, ci) (mem_of_lookup _ _ _ h0)
    constructor <;> intro hc <;> rw [hc] at hs <;>
      rcases hs with hs | hs | hs <;> exact ContainerStatus.noConfusion hs
  · intro tr e hwf id ci ci' h0 h1 hne
    rw [wfTrace_append, Bool.and_eq_true] at hwf
    rw [runReg_append] at h1
    rcases step_change (regInv_run tr initRegState regInv_init hwf.1)
        hwf.2 h0 h1 with heq | hr
    · exact absurd heq hne
    · exact hr
  · intro tr e hwf id ci h0 hterm
    rw [wfTrace_append, Bool.and_eq_true] at hwf
    rw [runReg_append]
    exact step_terminal (regInv_run tr initRegState regInv_init hwf.1)
      hwf.2 h0 hterm
  · intro tr e hwf id ci h0
    rw [runReg_append]
    exact step_mono h0

/-- Witness for C4: the container created by a concrete successful create
call has status `processing`. -/
theorem register_c4_witness : ciC1.status = ContainerStatus.processing :=
  register_c4.1 [] evCreateC1 (by decide) "C1" ciC1 rfl (by decide)

/-- C7: the status query is a pure lookup returning a not-found value for
every unknown id (never throwing — it is a total function of the state);
the controller route derives `timeElapsed = now - createdAt` from the
stored container on a hit; and the list-all query returns exactly the
stored containers.  Neither query produces a new `RegState`. -/
theorem register_c7 :
    (∀ (st : RegState) id, id ∉ st.containers.map Prod.fst →
        getContainerStatus st id = none) ∧
    (∀ (st : RegState) now id, id ≠ "" →
        getContainerStatus st id = none →
        getContainerStatusRoute st now (some id) =
          .notFound id "Container not found") ∧
    (∀ (st : RegState) now id info, id ≠ "" →
        getContainerStatus st id = some info →
        getContainerStatusRoute st now (some id) =
          .found id info (now - info.createdAt)) ∧
    (∀ st : RegState, getAllContainers st = st.containers.map Prod.snd) := by
  refine ⟨?_, ?_, ?_, ?_⟩
  · intro st id h
    exact lookup_eq_none _ _ h
  · intro st now id hne hl
    have ht : jsTruthy (some id) = true := by simp [jsTruthy, hne]
    simp [getContainerStatusRoute, ht, hl]
  · intro st now id info hne hl
    have ht : jsTruthy (some id) = true := by simp [jsTruthy, hne]
    simp [getContainerStatusRoute, ht, hl]
  · intro st
    rfl

/-- Witness for C7 on a register holding only C1. -/
theorem register_c7_witness :
    getContainerStatus (runReg initRegState [evCreateC1]) "UNKNOWN" = none :=
  register_c7.1 (runReg initRegState [evCreateC1]) "UNKNOWN" (by decide)

end ContentServer
